import Mathlib

/-!
# Gesture Command Pipeline & Whiteboard State Engine — verification

Shallow embedding of the gesture-controlled whiteboard repository.  The main
model follows `WhiteboardApp` in `adaptive_microgesture/app.py`; two smaller
models follow `GestureWhiteboard` in `whiteboard_app.py` and
`GestureRecognitionBackend` in `scripts/gesture_backend.py`.

Modelling conventions:
* Python floats become `ℚ`; pixel coordinates (Python ints) become `Int`.
* The raster canvas type is an abstract parameter `α`; the OpenCV drawing
  primitives (`cv2.line`, `cv2.rectangle`, ...) and the blank canvas
  (`np.ones(...) * 255`) are bundled in a `Prims α` record, since
  rasterization is an external collaborator of the engine.
* `collections.deque(maxlen = k)` is represented as a `List` whose HEAD is
  the deque's RIGHT end (newest element): `append` is `dequePush`,
  `pop` takes the head, and the automatic left-evictions are `List.take k`.
  The frame buffer, whose *oldest-first* iteration order matters (it is
  concatenated into the classifier window), is instead kept oldest-first
  with append at the tail.
* UI status messages (`status_message` / `status_expire`) and file I/O
  (`cv2.imwrite` in `save_canvas`) are presentation/persistence
  collaborators outside the modelled state.
-/

set_option autoImplicit false

/- Rational arithmetic is `@[irreducible]` in Batteries, which blocks
`decide`-style evaluation of the concrete executions below; the proofs are
unaffected (reducibility is an elaboration hint, not an axiom). -/
set_option allowUnsafeReducibility true
attribute [local semireducible] Rat.add Rat.sub Rat.mul Rat.inv

namespace MicroGesture

/-- A BGR color triple, as used by OpenCV. -/
abbrev Color := Nat × Nat × Nat

/-- One hand landmark: normalized (x, y, z) coordinates. -/
abbrev Point3 := ℚ × ℚ × ℚ

/-- A processed landmark snapshot: the flattened list of 21 coordinate
triples that `process_landmarks` produces (the `(1, 1, 21, 3)` reshape is
content-preserving, so the content is modelled directly). -/
abbrev Coords := List Point3

/-- `GESTURE_MAP` values in index order (identical in all three variants). -/
def gestureNames : List String :=
  ["write_start", "write_stop", "erase", "zoom_in", "zoom_out", "draw_shapes",
   "undo", "redo", "change_color", "save", "pan", "clear_all"]

/-- `GESTURE_MAP.get(gesture_id, "Unknown")` in `app.py`. -/
def gestureMap (i : Nat) : String := gestureNames.getD i "Unknown"

/-- `GESTURE_MAP.get(predicted_class, "unknown")` in `whiteboard_app.py`. -/
def wbGestureMap (i : Nat) : String := gestureNames.getD i "unknown"

/-- `deque.append` on a `deque(maxlen = cap)` represented newest-first:
cons the new element and keep the `cap` newest. -/
def dequePush {α : Type} (cap : Nat) (x : α) (l : List α) : List α :=
  List.take cap (x :: l)

/-- Python `int()` applied to a rational: truncation toward zero. -/
def pyInt (q : ℚ) : Int := if q < 0 then -(Int.floor (-q)) else Int.floor q

/-- External raster collaborators: the blank canvas
(`np.ones((h, w, 3), dtype=np.uint8) * 255`) and the OpenCV drawing
primitives used by `WhiteboardApp`.  Arguments mirror the call sites:
surface, endpoints (or center/radius), color, thickness. -/
structure Prims (α : Type) where
  blank : α
  line : α → Int × Int → Int × Int → Color → Nat → α
  rectangle : α → Int × Int → Int × Int → Color → Nat → α
  circle : α → Int × Int → Int → Color → Nat → α
  arrowedLine : α → Int × Int → Int × Int → Color → Nat → α

/-- The mutable state of `WhiteboardApp` (`app.py`), minus UI chrome. -/
structure AppState (α : Type) where
  drawing : Bool
  erasing : Bool
  drawing_color : Color
  canvas : α
  temp_canvas : α
  /-- `deque(maxlen=50)`, newest-first. -/
  history : List α
  /-- `deque(maxlen=50)`, newest-first. -/
  redo_stack : List α
  zoom_factor : ℚ
  offset_x : ℚ
  offset_y : ℚ
  pan_mode : Bool
  prev_pan_x : Int
  prev_pan_y : Int
  shape_drawing : Bool
  shape_start_point : Option (Int × Int)
  current_shape : String
  shape_index : Nat
  /-- `deque(maxlen=4)`, oldest-first (iteration order of the deque). -/
  frame_buffer : List Coords
  last_gesture : Option String
  last_gesture_time : ℚ
  gesture_cooldown : ℚ
  prev_x : Int
  prev_y : Int
  deriving DecidableEq, Repr

/-- `self.canvas_width` (1200), as a rational for offset arithmetic. -/
def canvasWidth : ℚ := 1200

/-- `self.canvas_height` (800). -/
def canvasHeight : ℚ := 800

/-- `self.line_thickness`. -/
def lineThickness : Nat := 5

/-- `self.eraser_thickness`. -/
def eraserThickness : Nat := 25

/-- `self.eraser_color` (white). -/
def eraserColor : Color := (255, 255, 255)

/-- `self.shapes`. -/
def shapes : List String := ["rectangle", "circle", "line", "arrow"]

/-- The color cycle in `change_color`. -/
def colors : List Color :=
  [(0, 0, 255), (0, 255, 0), (255, 0, 0), (0, 255, 255), (255, 0, 255), (255, 255, 0)]

/-- `WhiteboardApp.__init__` (state fields only).  `t0` is the value of
`time.time()` at construction; `prev_x`/`prev_y` are first assigned by
`start_drawing` in the source and are given a dummy value 0 here. -/
def initState {α : Type} (P : Prims α) (t0 : ℚ) : AppState α where
  drawing := false
  erasing := false
  drawing_color := (0, 0, 255)
  canvas := P.blank
  temp_canvas := P.blank
  history := [P.blank]
  redo_stack := []
  zoom_factor := 1
  offset_x := 0
  offset_y := 0
  pan_mode := false
  prev_pan_x := 0
  prev_pan_y := 0
  shape_drawing := false
  shape_start_point := none
  current_shape := "rectangle"
  shape_index := 0
  frame_buffer := []
  last_gesture := none
  last_gesture_time := t0
  gesture_cooldown := 1
  prev_x := 0
  prev_y := 0

/-- `WhiteboardApp.save_history`. -/
def save_history {α : Type} (s : AppState α) : AppState α :=
  { s with history := dequePush 50 s.canvas s.history, redo_stack := [] }

/-- `WhiteboardApp.undo`: no-op unless `len(self.history) > 1`. -/
def undo {α : Type} (s : AppState α) : AppState α :=
  match s.history with
  | popped :: c :: rest =>
      { s with redo_stack := dequePush 50 popped s.redo_stack,
               history := c :: rest, canvas := c, temp_canvas := c }
  | _ => s

/-- `WhiteboardApp.redo`: no-op if the redo stack is empty. -/
def redo {α : Type} (s : AppState α) : AppState α :=
  match s.redo_stack with
  | r :: rest =>
      { s with canvas := r, history := dequePush 50 r s.history,
               temp_canvas := r, redo_stack := rest }
  | [] => s

/-- `WhiteboardApp.clear_canvas`. -/
def clear_canvas {α : Type} (P : Prims α) (s : AppState α) : AppState α :=
  save_history { s with canvas := P.blank }

/-- `WhiteboardApp.change_color`. -/
def change_color {α : Type} (s : AppState α) : AppState α :=
  let current_idx := if s.drawing_color ∈ colors then colors.indexOf s.drawing_color else 0
  let next_idx := (current_idx + 1) % colors.length
  { s with drawing_color := colors.getD next_idx (0, 0, 255) }

/-- `WhiteboardApp.change_shape`. -/
def change_shape {α : Type} (s : AppState α) : AppState α :=
  let i := (s.shape_index + 1) % shapes.length
  { s with shape_index := i, current_shape := shapes.getD i "rectangle" }

/-- `WhiteboardApp.zoom`. -/
def zoom {α : Type} (direction : String) (s : AppState α) : AppState α :=
  if direction = "in" then { s with zoom_factor := min 3 (s.zoom_factor + 1/5) }
  else { s with zoom_factor := max 1 (s.zoom_factor - 1/5) }

/-- `WhiteboardApp.toggle_erasing`. -/
def toggle_erasing {α : Type} (s : AppState α) : AppState α :=
  { s with erasing := !s.erasing }

/-- `WhiteboardApp.save_canvas`: writes the canvas to disk (external
persistence sink); the modelled state is unchanged. -/
def save_canvas {α : Type} (s : AppState α) : AppState α := s

/-- `WhiteboardApp.start_pan`. -/
def start_pan {α : Type} (x y : Int) (s : AppState α) : AppState α :=
  { s with pan_mode := true, prev_pan_x := x, prev_pan_y := y }

/-- `WhiteboardApp.pan`: accumulate the doubled pointer delta, then clamp
each offset into `[-(canvasSize) * (zoom_factor - 1), 0]`. -/
def pan {α : Type} (x y : Int) (s : AppState α) : AppState α :=
  if s.pan_mode then
    let dx : ℚ := ((x - s.prev_pan_x : Int) : ℚ) * 2
    let dy : ℚ := ((y - s.prev_pan_y : Int) : ℚ) * 2
    { s with offset_x := max (-canvasWidth * (s.zoom_factor - 1)) (min 0 (s.offset_x + dx)),
             offset_y := max (-canvasHeight * (s.zoom_factor - 1)) (min 0 (s.offset_y + dy)),
             prev_pan_x := x, prev_pan_y := y }
  else s

/-- `WhiteboardApp.end_pan`. -/
def end_pan {α : Type} (s : AppState α) : AppState α :=
  { s with pan_mode := false }

/-- `WhiteboardApp.start_drawing`. -/
def start_drawing {α : Type} (x y : Int) (s : AppState α) : AppState α :=
  let s1 := { s with drawing := true, prev_x := x, prev_y := y }
  if s1.shape_drawing then { s1 with shape_start_point := some (x, y) } else s1

/-- `WhiteboardApp.draw`: line segment onto the temp canvas while a shape is
being drawn, otherwise onto the committed canvas. -/
def draw {α : Type} (P : Prims α) (x y : Int) (s : AppState α) : AppState α :=
  if s.drawing then
    let color := if s.erasing then eraserColor else s.drawing_color
    let thickness := if s.erasing then eraserThickness else lineThickness
    if s.shape_drawing then
      { s with temp_canvas := P.line s.temp_canvas (s.prev_x, s.prev_y) (x, y) color thickness,
               prev_x := x, prev_y := y }
    else
      { s with canvas := P.line s.canvas (s.prev_x, s.prev_y) (x, y) color thickness,
               prev_x := x, prev_y := y }
  else s

/-- `WhiteboardApp.end_drawing`. -/
def end_drawing {α : Type} (s : AppState α) : AppState α :=
  let s1 :=
    if s.drawing then
      let s2 := { s with drawing := false }
      if s2.shape_drawing then
        { save_history { s2 with canvas := s2.temp_canvas } with shape_drawing := false }
      else if s2.erasing = false then save_history s2
      else s2
    else s
  { s1 with temp_canvas := s1.canvas, shape_start_point := none }

/-- `WhiteboardApp.draw_shape`: re-render the selected shape onto a fresh
scratch copy of the committed canvas (`self.temp_canvas = self.canvas.copy()`
followed by the shape primitive). -/
def draw_shape {α : Type} (P : Prims α) (end_x end_y : Int) (s : AppState α) : AppState α :=
  match s.shape_start_point with
  | none => s
  | some (start_x, start_y) =>
    let color := if s.erasing then eraserColor else s.drawing_color
    let thickness := if s.erasing then eraserThickness else lineThickness
    let t :=
      if s.current_shape = "rectangle" then
        P.rectangle s.canvas (start_x, start_y) (end_x, end_y) color thickness
      else if s.current_shape = "circle" then
        let center_x := Int.fdiv (start_x + end_x) 2
        let center_y := Int.fdiv (start_y + end_y) 2
        let radius : Int := (Nat.sqrt ((end_x - start_x) ^ 2 + (end_y - start_y) ^ 2).toNat / 2 : Nat)
        P.circle s.canvas (center_x, center_y) radius color thickness
      else if s.current_shape = "line" then
        P.line s.canvas (start_x, start_y) (end_x, end_y) color thickness
      else if s.current_shape = "arrow" then
        P.arrowedLine s.canvas (start_x, start_y) (end_x, end_y) color thickness
      else s.canvas
    { s with temp_canvas := t }

/-- `WhiteboardApp.process_landmarks`: reject snapshots that do not have
exactly 21 points; otherwise produce the flattened coordinates. -/
def process_landmarks (landmarks : List Point3) : Option Coords :=
  if landmarks.length ≠ 21 then none else some landmarks

/-- The command branch table of `WhiteboardApp.handle_gesture`
(lines 284–309): one handler per gesture name; `write_start`, `pan` and
unknown names only set a status message. -/
def dispatchCommand {α : Type} (P : Prims α) (gesture_name : String)
    (s : AppState α) : AppState α :=
  match gesture_name with
  | "write_start" => s
  | "write_stop" => end_drawing s
  | "erase" => toggle_erasing s
  | "zoom_in" => zoom "in" s
  | "zoom_out" => zoom "out" s
  | "draw_shapes" => { s with shape_drawing := true }
  | "undo" => undo s
  | "redo" => redo s
  | "change_color" => change_color s
  | "save" => save_canvas s
  | "pan" => s
  | "clear_all" => clear_canvas P s
  | _ => s

/-- `WhiteboardApp.handle_gesture`, instrumented with a `Bool` recording
whether the dispatch branch ran (the gesture was emitted as a command). -/
def handle_gestureE {α : Type} (P : Prims α) (now : ℚ) (gesture_id : Nat)
    (s : AppState α) : AppState α × Bool :=
  if now - s.last_gesture_time < s.gesture_cooldown then (s, false)
  else
    let gesture_name := gestureMap gesture_id
    if some gesture_name ≠ s.last_gesture then
      (dispatchCommand P gesture_name
        { s with last_gesture := some gesture_name, last_gesture_time := now }, true)
    else (s, false)

/-- `WhiteboardApp.handle_gesture`. -/
def handle_gesture {α : Type} (P : Prims α) (now : ℚ) (gesture_id : Nat)
    (s : AppState α) : AppState α :=
  (handle_gestureE P now gesture_id s).1

/-- `WhiteboardApp.get_index_finger_position`: landmark 8 projected to
canvas pixel coordinates, `None` when fewer than 9 landmarks. -/
def get_index_finger_position (landmarks : List Point3) : Option (Int × Int) :=
  if 9 ≤ landmarks.length then
    let p := landmarks.getD 8 (0, 0, 0)
    some (pyInt (p.1 * canvasWidth), pyInt (p.2.1 * canvasHeight))
  else none

/-- `finger_pos = self.get_index_finger_position(landmarks) if landmarks
else None` in `run` (an empty landmark list is falsy, and also fails the
length-≥-9 guard inside the method). -/
def fingerPos (landmarks : Option (List Point3)) : Option (Int × Int) :=
  match landmarks with
  | none => none
  | some lms => get_index_finger_position lms

/-- `self.frame_buffer.append(processed)` on `deque(maxlen=4)`, oldest-first
representation: append at the tail, evicting the oldest on overflow. -/
def bufferPush (x : Coords) (buf : List Coords) : List Coords :=
  let b := buf ++ [x]
  if 4 < b.length then b.tail else b

/-- Landmark intake and classification (`run`, lines 411–424): push the
processed snapshot into the frame buffer; when the buffer reaches the
sequence length, concatenate it into the classifier input, invoke the
classifier, and on supra-threshold confidence hand the prediction to
`handle_gesture`.  The second component records the window submitted to
the classifier (`none` when the classifier was not invoked). -/
def intakePhase {α : Type} (P : Prims α) (classify : List Coords → Nat × ℚ) (now : ℚ)
    (landmarks : Option (List Point3)) (s : AppState α) :
    AppState α × Option (List Coords) :=
  match landmarks with
  | some lms =>
    match process_landmarks lms with
    | some processed =>
      let sb := { s with frame_buffer := bufferPush processed s.frame_buffer }
      if sb.frame_buffer.length = 4 then
        let input_data := sb.frame_buffer
        let res := classify input_data
        if res.2 > 7/10 then ((handle_gestureE P now res.1 sb).1, some input_data)
        else (sb, some input_data)
      else (sb, none)
    | none => (s, none)
  | none => (s, none)

/-- Pan handling (`run`, lines 429–436). -/
def panPhase {α : Type} (fp : Option (Int × Int)) (s : AppState α) : AppState α :=
  match fp with
  | some (x, y) =>
    if s.last_gesture = some "pan" then
      if s.pan_mode then pan x y s else start_pan x y s
    else if s.pan_mode then end_pan s else s
  | none => if s.pan_mode then end_pan s else s

/-- Drawing continuation (`run`, lines 438–451). -/
def drawPhase {α : Type} (P : Prims α) (fp : Option (Int × Int)) (s : AppState α) :
    AppState α :=
  match fp with
  | some (x, y) =>
    let s1 := if s.last_gesture = some "write_start" && !s.drawing
              then start_drawing x y s else s
    if s1.drawing then
      if s1.shape_drawing && s1.shape_start_point.isSome then draw_shape P x y s1
      else draw P x y s1
    else s1
  | none => s

/-- One iteration of the engine part of `WhiteboardApp.run` (lines 399–451):
landmark intake, window submission to the classifier, confidence gate,
gesture handling, pan handling, and drawing continuation.  The external
classifier (`predict_gesture`, TFLite) is a parameter `classify` from the
concatenated window to `(predicted_class, confidence)`; `landmarks` is the
per-frame landmark list, or `none` when no hand is tracked.  The second
component records the window submitted to the classifier this frame
(`none` when the classifier was not invoked). -/
def runStepW {α : Type} (P : Prims α) (classify : List Coords → Nat × ℚ) (now : ℚ)
    (landmarks : Option (List Point3)) (s : AppState α) :
    AppState α × Option (List Coords) :=
  let step1 := intakePhase P classify now landmarks s
  let fp := fingerPos landmarks
  (drawPhase P fp (panPhase fp step1.1), step1.2)

/-- The state component of `runStepW`. -/
def runStep {α : Type} (P : Prims α) (classify : List Coords → Nat × ℚ) (now : ℚ)
    (landmarks : Option (List Point3)) (s : AppState α) : AppState α :=
  (runStepW P classify now landmarks s).1

/-- One committed mutation: mutate the canvas (e.g. a completed stroke or a
clear) and `save_history` it, as every commit site in `app.py` does. -/
def commitCanvas {α : Type} (c : α) (s : AppState α) : AppState α :=
  save_history { s with canvas := c }

/-- A concrete canvas instantiation for witnesses and counterexamples: the
canvas is a `Nat` counter, blank is `0`, and every primitive produces a
fresh surface by incrementing, so successive draw operations give distinct
canvases. -/
def primsNat : Prims Nat where
  blank := 0
  line := fun c _ _ _ _ => c + 1
  rectangle := fun c _ _ _ _ => c + 1
  circle := fun c _ _ _ _ => c + 1
  arrowedLine := fun c _ _ _ _ => c + 1

/-! ## `GestureWhiteboard` (`whiteboard_app.py`) -/

/-- The mutable state of `GestureWhiteboard`, minus UI chrome.  Its history
is an unbounded list (oldest-first, as in the source) with a cursor. -/
structure WBState (α : Type) where
  canvas : α
  drawing : Bool
  erasing : Bool
  current_colour_idx : Nat
  history : List α
  history_index : Int
  last_gesture : Option String
  last_gesture_time : ℚ
  gesture_cooldown : ℚ
  deriving DecidableEq, Repr

/-- `GestureWhiteboard.handle_gesture`.  `blank` models the full-white
canvas written by `self.canvas[:] = 255`. -/
def wbHandleGesture {α : Type} (blank : α) (gesture_name : String)
    (s : WBState α) : WBState α :=
  if gesture_name = "write_start" then { s with drawing := true }
  else if gesture_name = "write_stop" then
    if s.drawing then
      let h := s.history.take (s.history_index + 1).toNat ++ [s.canvas]
      { s with history := h, history_index := (h.length : Int) - 1, drawing := false }
    else { s with drawing := false }
  else if gesture_name = "erase" then { s with erasing := !s.erasing }
  else if gesture_name = "change_color" then
    { s with current_colour_idx := (s.current_colour_idx + 1) % 7 }
  else if gesture_name = "save" then s
  else if gesture_name = "clear_all" then { s with canvas := blank }
  else if gesture_name = "undo" then
    if 0 < s.history_index then
      { s with history_index := s.history_index - 1,
               canvas := s.history.getD (s.history_index - 1).toNat s.canvas }
    else s
  else if gesture_name = "redo" then
    if s.history_index < (s.history.length : Int) - 1 then
      { s with history_index := s.history_index + 1,
               canvas := s.history.getD (s.history_index + 1).toNat s.canvas }
    else s
  else s

/-- The debounce-and-dispatch portion of `GestureWhiteboard.run`
(lines 232–242), for a classification that already passed the confidence
gate.  The `Bool` records whether the command was dispatched. -/
def wbDebounceStep {α : Type} (blank : α) (now : ℚ) (predicted_class : Nat)
    (s : WBState α) : WBState α × Bool :=
  let gesture_name := wbGestureMap predicted_class
  if some gesture_name ≠ s.last_gesture ∨ now - s.last_gesture_time > s.gesture_cooldown then
    (wbHandleGesture blank gesture_name
       { s with last_gesture := some gesture_name, last_gesture_time := now }, true)
  else (s, false)

/-! ## `GestureRecognitionBackend` (`scripts/gesture_backend.py`) -/

/-- The gesture state of the WebSocket service variant. -/
structure BackendState where
  current_gesture : Option String
  gesture_confidence : ℚ
  last_gesture_time : ℚ
  gesture_cooldown : ℚ
  deriving DecidableEq, Repr

/-- The cooldown gate of `GestureRecognitionBackend.process_frame`
(lines 150–171), for a classification that already passed the confidence
gate.  The `Bool` records whether a gesture event was produced. -/
def backendDebounceStep (now : ℚ) (gesture_name : String) (confidence : ℚ)
    (s : BackendState) : BackendState × Bool :=
  if now - s.last_gesture_time > s.gesture_cooldown then
    ({ s with current_gesture := some gesture_name,
              gesture_confidence := confidence,
              last_gesture_time := now }, true)
  else (s, false)

/-! ## Helper lemmas -/

section Lemmas

variable {α : Type}

theorem save_history_frame_buffer (s : AppState α) :
    (save_history s).frame_buffer = s.frame_buffer := rfl

theorem undo_frame_buffer (s : AppState α) :
    (undo s).frame_buffer = s.frame_buffer := by
  unfold undo; split <;> rfl

theorem redo_frame_buffer (s : AppState α) :
    (redo s).frame_buffer = s.frame_buffer := by
  unfold redo; split <;> rfl

theorem end_drawing_frame_buffer (s : AppState α) :
    (end_drawing s).frame_buffer = s.frame_buffer := by
  simp only [end_drawing, save_history]; split_ifs <;> rfl

theorem zoom_frame_buffer (d : String) (s : AppState α) :
    (zoom d s).frame_buffer = s.frame_buffer := by
  unfold zoom; split_ifs <;> rfl

theorem change_color_frame_buffer (s : AppState α) :
    (change_color s).frame_buffer = s.frame_buffer := rfl

theorem clear_canvas_frame_buffer (P : Prims α) (s : AppState α) :
    (clear_canvas P s).frame_buffer = s.frame_buffer := rfl

theorem toggle_erasing_frame_buffer (s : AppState α) :
    (toggle_erasing s).frame_buffer = s.frame_buffer := rfl

theorem dispatchCommand_frame_buffer (P : Prims α) (name : String) (s : AppState α) :
    (dispatchCommand P name s).frame_buffer = s.frame_buffer := by
  unfold dispatchCommand
  split <;>
    simp only [end_drawing_frame_buffer, undo_frame_buffer, redo_frame_buffer,
      zoom_frame_buffer, change_color_frame_buffer, clear_canvas_frame_buffer,
      toggle_erasing_frame_buffer, save_canvas]

theorem handle_gestureE_frame_buffer (P : Prims α) (now : ℚ) (gid : Nat) (s : AppState α) :
    (handle_gestureE P now gid s).1.frame_buffer = s.frame_buffer := by
  simp only [handle_gestureE]
  split_ifs <;> simp only [dispatchCommand_frame_buffer]

theorem pan_frame_buffer (x y : Int) (s : AppState α) :
    (pan x y s).frame_buffer = s.frame_buffer := by
  unfold pan; split_ifs <;> rfl

theorem start_pan_frame_buffer (x y : Int) (s : AppState α) :
    (start_pan x y s).frame_buffer = s.frame_buffer := rfl

theorem end_pan_frame_buffer (s : AppState α) :
    (end_pan s).frame_buffer = s.frame_buffer := rfl

theorem panPhase_frame_buffer (fp : Option (Int × Int)) (s : AppState α) :
    (panPhase fp s).frame_buffer = s.frame_buffer := by
  simp only [panPhase]
  split <;> split_ifs <;>
    simp only [pan_frame_buffer, start_pan_frame_buffer, end_pan_frame_buffer]

theorem draw_frame_buffer (P : Prims α) (x y : Int) (s : AppState α) :
    (draw P x y s).frame_buffer = s.frame_buffer := by
  unfold draw; split_ifs <;> rfl

theorem draw_shape_frame_buffer (P : Prims α) (x y : Int) (s : AppState α) :
    (draw_shape P x y s).frame_buffer = s.frame_buffer := by
  unfold draw_shape; split <;> rfl

theorem start_drawing_frame_buffer (x y : Int) (s : AppState α) :
    (start_drawing x y s).frame_buffer = s.frame_buffer := by
  simp only [start_drawing]; split_ifs <;> rfl

theorem drawPhase_frame_buffer (P : Prims α) (fp : Option (Int × Int)) (s : AppState α) :
    (drawPhase P fp s).frame_buffer = s.frame_buffer := by
  simp only [drawPhase]
  split
  · split_ifs <;>
      simp only [draw_frame_buffer, draw_shape_frame_buffer, start_drawing_frame_buffer]
  · rfl

theorem dequePush_eq_cons (cap : Nat) (x : α) (l : List α) (h : cap ≠ 0) :
    dequePush cap x l = x :: List.take (cap - 1) l := by
  unfold dequePush
  cases cap with
  | zero => exact absurd rfl h
  | succ n => simp [List.take_succ_cons]

theorem dequePush_length (cap : Nat) (x : α) (l : List α) :
    (dequePush cap x l).length = min cap (l.length + 1) := by
  simp [dequePush]

theorem undo_of_history_short (s : AppState α) (h : s.history.length ≤ 1) :
    undo s = s := by
  rcases hh : s.history with _ | ⟨a, _ | ⟨b, l⟩⟩
  · simp only [undo, hh]
  · simp only [undo, hh]
  · rw [hh] at h; simp at h

theorem undo_history_length (s : AppState α) (h : 2 ≤ s.history.length) :
    (undo s).history.length + 1 = s.history.length := by
  rcases hh : s.history with _ | ⟨a, _ | ⟨b, l⟩⟩
  · rw [hh] at h; simp at h
  · rw [hh] at h; simp at h
  · simp only [undo, hh]; simp

theorem undo_iter_history_length (s : AppState α) (k : Nat)
    (h : k + 1 ≤ s.history.length) :
    (undo^[k] s).history.length = s.history.length - k := by
  induction k with
  | zero => simp
  | succ n ih =>
      rw [Function.iterate_succ_apply']
      have h1 : n + 1 ≤ s.history.length := by omega
      have h2 : 2 ≤ (undo^[n] s).history.length := by rw [ih h1]; omega
      have h3 := undo_history_length (undo^[n] s) h2
      have h4 := ih h1
      omega

theorem commitCanvas_history_length (c : α) (s : AppState α) :
    (commitCanvas c s).history.length = min 50 (s.history.length + 1) := by
  simp [commitCanvas, save_history, dequePush_length]

theorem commits_history_length (cs : List α) (s : AppState α)
    (h : s.history.length ≤ 50) :
    ((cs.foldl (fun t c => commitCanvas c t) s).history.length)
      = min 50 (s.history.length + cs.length) := by
  induction cs generalizing s with
  | nil => simpa using (min_eq_right h).symm
  | cons c cs ih =>
      rw [List.foldl_cons]
      have hc := commitCanvas_history_length c s
      have hle : (commitCanvas c s).history.length ≤ 50 := by omega
      rw [ih (commitCanvas c s) hle, hc]
      simp only [List.length_cons]
      omega

theorem draw_shape_fields (P : Prims α) (x y : Int) (s : AppState α) :
    (draw_shape P x y s).canvas = s.canvas
  ∧ (draw_shape P x y s).history = s.history
  ∧ (draw_shape P x y s).redo_stack = s.redo_stack
  ∧ (draw_shape P x y s).drawing = s.drawing
  ∧ (draw_shape P x y s).shape_drawing = s.shape_drawing := by
  unfold draw_shape
  split <;> simp

theorem foldDrawShape_fields (P : Prims α) (ps : List (Int × Int)) (s : AppState α) :
    (ps.foldl (fun t p => draw_shape P p.1 p.2 t) s).canvas = s.canvas
  ∧ (ps.foldl (fun t p => draw_shape P p.1 p.2 t) s).history = s.history
  ∧ (ps.foldl (fun t p => draw_shape P p.1 p.2 t) s).redo_stack = s.redo_stack
  ∧ (ps.foldl (fun t p => draw_shape P p.1 p.2 t) s).drawing = s.drawing
  ∧ (ps.foldl (fun t p => draw_shape P p.1 p.2 t) s).shape_drawing = s.shape_drawing := by
  induction ps generalizing s with
  | nil => simp
  | cons p ps ih =>
      rw [List.foldl_cons]
      obtain ⟨i1, i2, i3, i4, i5⟩ := ih (draw_shape P p.1 p.2 s)
      obtain ⟨d1, d2, d3, d4, d5⟩ := draw_shape_fields P p.1 p.2 s
      exact ⟨i1.trans d1, i2.trans d2, i3.trans d3, i4.trans d4, i5.trans d5⟩

theorem end_drawing_commits_shape (s : AppState α)
    (hd : s.drawing = true) (hs : s.shape_drawing = true) :
    (end_drawing s).canvas = s.temp_canvas
  ∧ (end_drawing s).history = dequePush 50 s.temp_canvas s.history
  ∧ (end_drawing s).shape_drawing = false := by
  simp [end_drawing, save_history, hd, hs]

theorem mem_bufferPush (c x : Coords) (buf : List Coords)
    (h : c ∈ bufferPush x buf) : c ∈ buf ∨ c = x := by
  simp only [bufferPush] at h
  split at h
  · have := List.mem_of_mem_tail h
    simpa using this
  · simpa using h

theorem runStepW_fst_frame_buffer (P : Prims α) (classify : List Coords → Nat × ℚ)
    (now : ℚ) (lms : Option (List Point3)) (s : AppState α) :
    (runStepW P classify now lms s).1.frame_buffer
      = (intakePhase P classify now lms s).1.frame_buffer := by
  simp only [runStepW, drawPhase_frame_buffer, panPhase_frame_buffer]

theorem intakePhase_none (P : Prims α) (classify : List Coords → Nat × ℚ)
    (now : ℚ) (s : AppState α) :
    intakePhase P classify now none s = (s, none) := rfl

theorem intakePhase_reject (P : Prims α) (classify : List Coords → Nat × ℚ)
    (now : ℚ) (l : List Point3) (s : AppState α) (h : l.length ≠ 21) :
    intakePhase P classify now (some l) s = (s, none) := by
  simp [intakePhase, process_landmarks, h]

theorem intakePhase_accept (P : Prims α) (classify : List Coords → Nat × ℚ)
    (now : ℚ) (l : List Point3) (s : AppState α) (h : l.length = 21) :
    (intakePhase P classify now (some l) s).1.frame_buffer
        = bufferPush l s.frame_buffer
  ∧ (intakePhase P classify now (some l) s).2
        = (if (bufferPush l s.frame_buffer).length = 4
           then some (bufferPush l s.frame_buffer) else none) := by
  have hp : process_landmarks l = some l := by simp [process_landmarks, h]
  simp only [intakePhase, hp]
  split_ifs with h1 h2 <;>
    simp [handle_gestureE_frame_buffer, h1]

end Lemmas

/-! ## Concrete data for closed executions -/

/-- A landmark snapshot of 21 points tagged by `q` (normalized x of every
point), used to build concrete frame sequences. -/
def snap (q : ℚ) : List Point3 := List.replicate 21 (q, 0, 0)

/-- A classifier stub that always reports class 0 with confidence 0
(below the 0.7 gate). -/
def clZero : List Coords → Nat × ℚ := fun _ => (0, 0)

/-- The interactive-app state after the debouncer has just emitted
`write_start` at time 0 (last-emitted name recorded, timestamp 0). -/
def c1State : AppState Nat :=
  { initState primsNat 0 with last_gesture := some "write_start" }

/-- A `GestureWhiteboard` state whose last emitted gesture is `erase`
at time 0. -/
def c10WbState : WBState Nat where
  canvas := 0
  drawing := false
  erasing := false
  current_colour_idx := 0
  history := []
  history_index := -1
  last_gesture := some "erase"
  last_gesture_time := 0
  gesture_cooldown := 1

/-- The gesture-state fields of `GestureRecognitionBackend.__init__`
(lines 56–59): no gesture yet and a 0.5s cooldown. -/
def backendInitState : BackendState where
  current_gesture := none
  gesture_confidence := 0
  last_gesture_time := 0
  gesture_cooldown := 1/2

/-! ## Claims -/

/-- C1 (amended): the three debouncers differ.  `GestureWhiteboard.run`
dispatches iff the gesture name differs from the previously emitted one OR
the cooldown has elapsed; `WhiteboardApp.handle_gesture` dispatches iff the
cooldown has elapsed AND the name differs (a pose switch during cooldown is
suppressed, and a held pose is never re-dispatched after cooldown); the
service variant (`GestureRecognitionBackend`) dispatches iff the cooldown
has elapsed, regardless of the name. -/
theorem C1_debounce_characterization {α β : Type} (P : Prims α) (blank : β)
    (now : ℚ) (gid : Nat) (s : AppState α) (s' : WBState β)
    (sb : BackendState) (name : String) (conf : ℚ) :
    ((handle_gestureE P now gid s).2 = true
        ↔ s.gesture_cooldown ≤ now - s.last_gesture_time
          ∧ some (gestureMap gid) ≠ s.last_gesture)
  ∧ ((wbDebounceStep blank now gid s').2 = true
        ↔ some (wbGestureMap gid) ≠ s'.last_gesture
          ∨ s'.gesture_cooldown < now - s'.last_gesture_time)
  ∧ ((backendDebounceStep now name conf sb).2 = true
        ↔ sb.gesture_cooldown < now - sb.last_gesture_time)
  ∧ (initState P now).gesture_cooldown = 1
  ∧ backendInitState.gesture_cooldown = 1/2 := by
  refine ⟨?_, ?_, ?_, rfl, rfl⟩
  · simp only [handle_gestureE]
    split_ifs with hcd hne
    · exact iff_of_false (by simp) (fun hab => absurd hab.1 (not_le.mpr hcd))
    · exact iff_of_true rfl ⟨not_lt.mp hcd, hne⟩
    · exact iff_of_false (by simp) (fun hab => hne hab.2)
  · simp only [wbDebounceStep]
    split_ifs with hd
    · exact iff_of_true rfl hd
    · exact iff_of_false (by simp) hd
  · simp only [backendDebounceStep]
    split_ifs with hd
    · exact iff_of_true rfl hd
    · exact iff_of_false (by simp) hd

/-- C1 counterexample: in `WhiteboardApp.handle_gesture`, a
confidence-gated classification whose name (`erase`) differs from the
previously emitted name (`write_start`) is NOT dispatched while the 1.0s
cooldown has not elapsed — the claim's "dispatched iff the name differs or
the cooldown elapsed" fails on this implementation. -/
theorem C1_counterexample :
    gestureMap 2 = "erase"
  ∧ some (gestureMap 2) ≠ c1State.last_gesture
  ∧ (1/2 : ℚ) - c1State.last_gesture_time < c1State.gesture_cooldown
  ∧ handle_gestureE primsNat (1/2) 2 c1State = (c1State, false) := by
  decide

/-- C10: whenever a classification is suppressed by the debouncer (the
dispatch flag is `false`), the whole state — last-emitted name, timestamp,
canvas, history, tool mode, view transform, palette — is unchanged, in both
the `WhiteboardApp` and the `GestureWhiteboard` implementations. -/
theorem C10_suppressed_frame_no_mutation {α β : Type} (P : Prims α) (blank : β)
    (now : ℚ) (gid gid2 : Nat) (s : AppState α) (s' : WBState β)
    (h1 : (handle_gestureE P now gid s).2 = false)
    (h2 : (wbDebounceStep blank now gid2 s').2 = false) :
    (handle_gestureE P now gid s).1 = s ∧ (wbDebounceStep blank now gid2 s').1 = s' := by
  constructor
  · simp only [handle_gestureE] at h1 ⊢
    split_ifs at h1 ⊢ <;> rfl
  · simp only [wbDebounceStep] at h2 ⊢
    split_ifs at h2 ⊢ <;> rfl

/-- Witness for C10 at concrete suppressed frames: a cooldown-suppressed
frame of the app variant and a same-name-within-cooldown frame of the
whiteboard variant. -/
theorem C10_witness :
    ((handle_gestureE primsNat 0 0 (initState primsNat 0)).2 = false
      ∧ (wbDebounceStep (0 : Nat) 0 2 c10WbState).2 = false)
  ∧ ((handle_gestureE primsNat 0 0 (initState primsNat 0)).1 = initState primsNat 0
      ∧ (wbDebounceStep (0 : Nat) 0 2 c10WbState).1 = c10WbState) :=
  ⟨⟨by decide, by decide⟩,
   C10_suppressed_frame_no_mutation primsNat 0 0 0 2 (initState primsNat 0) c10WbState
     (by decide) (by decide)⟩

/-- The app state after exactly 60 committed mutations from the freshly
initialized history (seeded with the blank canvas `0`). -/
def commits60 : AppState Nat :=
  (List.range 60).foldl (fun t c => commitCanvas c t) (initState primsNat 0)

/-- C2 counterexample: after 60 commits, the 49th undo still has effect but
the 50th is already a no-op — so "exactly 50 undo steps with effect" fails
(only 49 are available: the bounded history retains 50 snapshots, and the
last retained snapshot cannot itself be undone past). -/
theorem C2_counterexample :
    undo^[50] commits60 = undo^[49] commits60
  ∧ undo^[49] commits60 ≠ undo^[48] commits60 := by
  decide

/-- C2 (amended): starting from the freshly initialized history (seeded
with the blank canvas), after exactly 60 committed mutations the history
holds 50 snapshots and the undo operation can be applied exactly 49 times
with effect before becoming a no-op — the oldest 11 of the 61 recorded
states (the seeded blank canvas and the first 10 commits) are
unrecoverable. -/
theorem C2_history_bound_after_60_commits {α : Type} (P : Prims α) (t0 : ℚ)
    (cs : List α) (h : cs.length = 60) :
    ((cs.foldl (fun t c => commitCanvas c t) (initState P t0)).history.length = 50)
  ∧ (∀ k < 49,
      undo^[k+1] (cs.foldl (fun t c => commitCanvas c t) (initState P t0))
        ≠ undo^[k] (cs.foldl (fun t c => commitCanvas c t) (initState P t0)))
  ∧ undo^[50] (cs.foldl (fun t c => commitCanvas c t) (initState P t0))
      = undo^[49] (cs.foldl (fun t c => commitCanvas c t) (initState P t0)) := by
  set s := cs.foldl (fun t c => commitCanvas c t) (initState P t0) with hs
  have h0 : (initState P t0 : AppState α).history.length = 1 := rfl
  have hlen : s.history.length = 50 := by
    have hc := commits_history_length cs (initState P t0) (by rw [h0]; omega)
    rw [h0, h] at hc
    rw [hs, hc]
    omega
  refine ⟨hlen, ?_, ?_⟩
  · intro k hk heq
    have l1 : (undo^[k+1] s).history.length = s.history.length - (k+1) :=
      undo_iter_history_length s (k+1) (by omega)
    have l2 : (undo^[k] s).history.length = s.history.length - k :=
      undo_iter_history_length s k (by omega)
    rw [heq] at l1
    omega
  · have l49 : (undo^[49] s).history.length = s.history.length - 49 :=
      undo_iter_history_length s 49 (by omega)
    rw [Function.iterate_succ_apply']
    exact undo_of_history_short (undo^[49] s) (by omega)

/-- Witness for C2 at the concrete 60-commit run. -/
theorem C2_witness :
    (List.range 60).length = 60
  ∧ (((List.range 60).foldl (fun t c => commitCanvas c t) (initState primsNat 0)).history.length = 50
     ∧ (∀ k < 49,
         undo^[k+1] ((List.range 60).foldl (fun t c => commitCanvas c t) (initState primsNat 0))
           ≠ undo^[k] ((List.range 60).foldl (fun t c => commitCanvas c t) (initState primsNat 0)))
     ∧ undo^[50] ((List.range 60).foldl (fun t c => commitCanvas c t) (initState primsNat 0))
         = undo^[49] ((List.range 60).foldl (fun t c => commitCanvas c t) (initState primsNat 0))) :=
  ⟨by decide, C2_history_bound_after_60_commits primsNat 0 (List.range 60) (by decide)⟩

/-- The state after one committed freehand stroke (`start_drawing`, `draw`,
`end_drawing`): history holds the stroke canvas and the blank canvas, and
the live canvas equals the top history entry. -/
def strokeCommitted : AppState Nat :=
  end_drawing (draw primsNat 1 1 (start_drawing 0 0 (initState primsNat 0)))

/-- `strokeCommitted` followed by a second stroke that has begun but has
not been ended: the live canvas has uncommitted content. -/
def strokeInProgress : AppState Nat :=
  draw primsNat 6 6 (start_drawing 5 5 strokeCommitted)

/-- C5 counterexample: in a state where undo is applicable (two history
entries) but the canvas has an uncommitted stroke, undo-then-redo yields
the last committed canvas, not the pre-undo canvas. -/
theorem C5_counterexample :
    1 < strokeInProgress.history.length
  ∧ (redo (undo strokeInProgress)).canvas ≠ strokeInProgress.canvas := by
  decide

/-- C5 (amended): for every state in which undo is applicable (at least two
history entries) and the canvas has no uncommitted mutations (it equals the
top history entry), undo followed by redo restores the canvas exactly; and
redo is a no-op whenever the redo sequence is empty. -/
theorem C5_undo_redo_roundtrip {α : Type} (s : AppState α)
    (h1 : 1 < s.history.length) (h2 : s.history.head? = some s.canvas) :
    (redo (undo s)).canvas = s.canvas
  ∧ ∀ t : AppState α, t.redo_stack = [] → redo t = t := by
  constructor
  · rcases hh : s.history with _ | ⟨a, rest⟩
    · rw [hh] at h1; simp at h1
    · rcases rest with _ | ⟨b, l⟩
      · rw [hh] at h1; simp at h1
      · have ha : a = s.canvas := by rw [hh] at h2; simpa using h2
        simp only [undo, hh]
        rw [dequePush_eq_cons 50 a s.redo_stack (by omega)]
        simp only [redo]
        exact ha
  · intro t ht
    simp only [redo, ht]

/-- Witness for C5 at the committed one-stroke state. -/
theorem C5_witness :
    (1 < strokeCommitted.history.length
      ∧ strokeCommitted.history.head? = some strokeCommitted.canvas)
  ∧ ((redo (undo strokeCommitted)).canvas = strokeCommitted.canvas
      ∧ ∀ t : AppState Nat, t.redo_stack = [] → redo t = t) :=
  ⟨⟨by decide, by decide⟩,
   C5_undo_redo_roundtrip strokeCommitted (by decide) (by decide)⟩

theorem take_cons_pos {γ : Type} (n : Nat) (a : γ) (l : List γ) (h : n ≠ 0) :
    List.take n (a :: l) = a :: List.take (n - 1) l := by
  cases n with
  | zero => exact absurd rfl h
  | succ m => simp [List.take_succ_cons]

/-- C6 counterexample: `clear_all` on a canvas with an uncommitted stroke
does reset to blank, but the single subsequent undo restores the last
committed canvas, not the pre-clear canvas. -/
theorem C6_counterexample :
    (clear_canvas primsNat strokeInProgress).canvas = primsNat.blank
  ∧ (undo (clear_canvas primsNat strokeInProgress)).canvas ≠ strokeInProgress.canvas := by
  decide

/-- C6 (amended): dispatching `clear_all` resets the canvas to blank and
pushes exactly one new history entry; and provided the pre-clear canvas had
no uncommitted mutations (it equals the top history entry), a single
subsequent undo restores the pre-clear canvas exactly. -/
theorem C6_clear_all_blank_push_undo {α : Type} (P : Prims α) (s : AppState α)
    (h : s.history.head? = some s.canvas) :
    (clear_canvas P s).canvas = P.blank
  ∧ (clear_canvas P s).history = dequePush 50 P.blank s.history
  ∧ (undo (clear_canvas P s)).canvas = s.canvas := by
  refine ⟨rfl, rfl, ?_⟩
  rcases hh : s.history with _ | ⟨a, rest⟩
  · rw [hh] at h; simp at h
  · have ha : a = s.canvas := by rw [hh] at h; simpa using h
    simp only [clear_canvas, save_history]
    rw [hh, dequePush_eq_cons 50 P.blank (a :: rest) (by omega)]
    rw [show (50 : Nat) - 1 = 49 from rfl, take_cons_pos 49 a rest (by omega)]
    simp only [undo]
    exact ha

/-- Witness for C6 at the committed one-stroke state. -/
theorem C6_witness :
    (strokeCommitted.history.head? = some strokeCommitted.canvas)
  ∧ ((clear_canvas primsNat strokeCommitted).canvas = primsNat.blank
      ∧ (clear_canvas primsNat strokeCommitted).history
          = dequePush 50 primsNat.blank strokeCommitted.history
      ∧ (undo (clear_canvas primsNat strokeCommitted)).canvas = strokeCommitted.canvas) :=
  ⟨by decide, C6_clear_all_blank_push_undo primsNat strokeCommitted (by decide)⟩

/-- C3: per frame, the classifier is invoked only on a window of exactly 4
snapshots each holding exactly 21 points (the submitted window is exactly
the buffer content), a snapshot whose point count is not 21 is rejected
without modifying the buffer, and a full-buffer invariant (all entries have
21 points) is preserved. -/
theorem C3_classifier_window_invariant {α : Type} (P : Prims α)
    (classify : List Coords → Nat × ℚ) (now : ℚ) (lms : Option (List Point3))
    (s : AppState α) (hinv : ∀ c ∈ s.frame_buffer, c.length = 21) :
    (∀ ws, (runStepW P classify now lms s).2 = some ws →
        ws.length = 4 ∧ (∀ c ∈ ws, c.length = 21)
        ∧ ws = (runStepW P classify now lms s).1.frame_buffer)
  ∧ (∀ l, lms = some l → l.length ≠ 21 →
        (runStepW P classify now lms s).1.frame_buffer = s.frame_buffer
        ∧ (runStepW P classify now lms s).2 = none)
  ∧ (∀ c ∈ (runStepW P classify now lms s).1.frame_buffer, c.length = 21) := by
  have rfb := runStepW_fst_frame_buffer P classify now lms s
  have r2 : (runStepW P classify now lms s).2 = (intakePhase P classify now lms s).2 := rfl
  rcases lms with _ | l
  · rw [intakePhase_none] at rfb r2
    refine ⟨?_, ?_, ?_⟩
    · intro ws hws
      rw [r2] at hws
      exact absurd hws (by simp)
    · intro l hl
      exact absurd hl (by simp)
    · rw [rfb]
      exact hinv
  · by_cases hl : l.length = 21
    · obtain ⟨hfb, hw⟩ := intakePhase_accept P classify now l s hl
      rw [hfb] at rfb
      rw [hw] at r2
      have hmem : ∀ c ∈ bufferPush l s.frame_buffer, c.length = 21 := by
        intro c hc
        rcases mem_bufferPush c l s.frame_buffer hc with h | h
        · exact hinv c h
        · rw [h]; exact hl
      refine ⟨?_, ?_, ?_⟩
      · intro ws hws
        rw [r2] at hws
        split_ifs at hws with hlen
        · obtain rfl : bufferPush l s.frame_buffer = ws := Option.some.inj hws
          exact ⟨hlen, hmem, rfb.symm⟩
      · intro l2 hl2 hne
        obtain rfl : l = l2 := Option.some.inj hl2
        exact absurd hl hne
      · rw [rfb]
        exact hmem
    · have hi := intakePhase_reject P classify now l s hl
      rw [hi] at rfb r2
      refine ⟨?_, ?_, ?_⟩
      · intro ws hws
        rw [r2] at hws
        exact absurd hws (by simp)
      · intro l2 hl2 hne
        exact ⟨rfb, r2⟩
      · rw [rfb]
        exact hinv

/-- Witness for C3 on a fresh state receiving one valid snapshot. -/
theorem C3_witness :
    (∀ c ∈ (initState primsNat 0 : AppState Nat).frame_buffer, c.length = 21)
  ∧ ((∀ ws, (runStepW primsNat clZero 0 (some (snap 1)) (initState primsNat 0)).2 = some ws →
        ws.length = 4 ∧ (∀ c ∈ ws, c.length = 21)
        ∧ ws = (runStepW primsNat clZero 0 (some (snap 1)) (initState primsNat 0)).1.frame_buffer)
     ∧ (∀ l, (some (snap 1) : Option (List Point3)) = some l → l.length ≠ 21 →
        (runStepW primsNat clZero 0 (some (snap 1)) (initState primsNat 0)).1.frame_buffer
            = (initState primsNat 0 : AppState Nat).frame_buffer
        ∧ (runStepW primsNat clZero 0 (some (snap 1)) (initState primsNat 0)).2 = none)
     ∧ (∀ c ∈ (runStepW primsNat clZero 0 (some (snap 1)) (initState primsNat 0)).1.frame_buffer,
          c.length = 21)) :=
  ⟨by simp [initState], C3_classifier_window_invariant primsNat clZero 0 (some (snap 1))
    (initState primsNat 0) (by simp [initState])⟩

/-- The app state after three valid snapshots followed by ten frames with
no tracked hand (a tracking loss of length 10). -/
def c4Before : AppState Nat :=
  ([some (snap 1), some (snap 2), some (snap 3)] ++ List.replicate 10 none).foldl
    (fun s l => runStep primsNat clZero 0 l s) (initState primsNat 0)

/-- C4 counterexample: after a 10-frame tracking loss the buffer still
holds the three pre-loss snapshots, and the next snapshot triggers a
classifier invocation on a window mixing pre-loss and post-loss snapshots —
no buffer reset on tracking loss exists in the code. -/
theorem C4_counterexample :
    c4Before.frame_buffer = [snap 1, snap 2, snap 3]
  ∧ (runStepW primsNat clZero 0 (some (snap 4)) c4Before).2
      = some [snap 1, snap 2, snap 3, snap 4] := by
  decide

/-- C4 (amended): frames with no tracked hand never modify the window
buffer — the buffer is not cleared on tracking loss of any length, so a
classifier window may contain snapshots taken both before and after a
tracking loss. -/
theorem C4_tracking_loss_preserves_buffer {α : Type} (P : Prims α)
    (classify : List Coords → Nat × ℚ) (ts : List ℚ) (s : AppState α) :
    (ts.foldl (fun t now => runStep P classify now none t) s).frame_buffer
      = s.frame_buffer := by
  induction ts generalizing s with
  | nil => rfl
  | cons now ts ih =>
      rw [List.foldl_cons, ih (runStep P classify now none s)]
      rw [runStep, runStepW_fst_frame_buffer, intakePhase_none]

/-- C7: while a shape preview is active (drawing and shape mode on), any
number of preview re-renders leaves the committed canvas and the history
unchanged, and the `write_stop` commit (`end_drawing`) commits the preview
surface as the canvas with exactly one new history entry. -/
theorem C7_shape_preview_isolated {α : Type} (P : Prims α)
    (ps : List (Int × Int)) (s : AppState α)
    (hd : s.drawing = true) (hs : s.shape_drawing = true) :
    (ps.foldl (fun t p => draw_shape P p.1 p.2 t) s).canvas = s.canvas
  ∧ (ps.foldl (fun t p => draw_shape P p.1 p.2 t) s).history = s.history
  ∧ (ps.foldl (fun t p => draw_shape P p.1 p.2 t) s).redo_stack = s.redo_stack
  ∧ (end_drawing (ps.foldl (fun t p => draw_shape P p.1 p.2 t) s)).canvas
      = (ps.foldl (fun t p => draw_shape P p.1 p.2 t) s).temp_canvas
  ∧ (end_drawing (ps.foldl (fun t p => draw_shape P p.1 p.2 t) s)).history
      = dequePush 50 (ps.foldl (fun t p => draw_shape P p.1 p.2 t) s).temp_canvas s.history := by
  obtain ⟨f1, f2, f3, f4, f5⟩ := foldDrawShape_fields P ps s
  obtain ⟨e1, e2, e3⟩ :=
    end_drawing_commits_shape (ps.foldl (fun t p => draw_shape P p.1 p.2 t) s)
      (f4.trans hd) (f5.trans hs)
  exact ⟨f1, f2, f3, e1, by rw [e2, f2]⟩

/-- The state in shape-preview mode with an anchor set: `draw_shapes`
entered shape mode, then `write_start` anchored the shape. -/
def shapePreviewState : AppState Nat :=
  start_drawing 0 0 { initState primsNat 0 with shape_drawing := true }

/-- Witness for C7 with two preview re-renders. -/
theorem C7_witness :
    (shapePreviewState.drawing = true ∧ shapePreviewState.shape_drawing = true)
  ∧ (([(1, 1), (2, 2)].foldl (fun t p => draw_shape primsNat p.1 p.2 t) shapePreviewState).canvas
        = shapePreviewState.canvas
     ∧ ([(1, 1), (2, 2)].foldl (fun t p => draw_shape primsNat p.1 p.2 t) shapePreviewState).history
        = shapePreviewState.history
     ∧ ([(1, 1), (2, 2)].foldl (fun t p => draw_shape primsNat p.1 p.2 t) shapePreviewState).redo_stack
        = shapePreviewState.redo_stack
     ∧ (end_drawing ([(1, 1), (2, 2)].foldl (fun t p => draw_shape primsNat p.1 p.2 t) shapePreviewState)).canvas
        = ([(1, 1), (2, 2)].foldl (fun t p => draw_shape primsNat p.1 p.2 t) shapePreviewState).temp_canvas
     ∧ (end_drawing ([(1, 1), (2, 2)].foldl (fun t p => draw_shape primsNat p.1 p.2 t) shapePreviewState)).history
        = dequePush 50 ([(1, 1), (2, 2)].foldl (fun t p => draw_shape primsNat p.1 p.2 t) shapePreviewState).temp_canvas
            shapePreviewState.history) :=
  ⟨⟨by decide, by decide⟩,
   C7_shape_preview_isolated primsNat [(1, 1), (2, 2)] shapePreviewState (by decide) (by decide)⟩

/-- Zoom fully in, pan to the offset bound, then zoom out once: the offsets
are not re-clamped. -/
def zoomPanZoomOut : AppState Nat :=
  zoom "out" (pan 0 0 (start_pan 1200 800 ((zoom "in")^[10] (initState primsNat 0))))

set_option maxRecDepth 8000 in
/-- C8 counterexample: after panning to the clamp bound at zoom 3.0 and
then dispatching `zoom_out`, the x offset (−2400) lies strictly below the
claimed lower bound −canvasWidth·(zoomFactor−1) = −2160. -/
theorem C8_counterexample :
    zoomPanZoomOut.offset_x < -canvasWidth * (zoomPanZoomOut.zoom_factor - 1) := by
  decide

/-- C8 (amended): every pan motion clamps both offsets into
[−canvasSize·(zoomFactor−1), 0] for the zoom factor current at that
moment (whenever zoomFactor ≥ 1), but zoom commands never re-clamp the
offsets, so a `zoom_out` after panning can leave them outside the bounds
until the next pan motion. -/
theorem C8_pan_clamps_offsets {α : Type} (s : AppState α) (x y : Int)
    (hz : 1 ≤ s.zoom_factor) (hp : s.pan_mode = true) :
    (-canvasWidth * ((pan x y s).zoom_factor - 1) ≤ (pan x y s).offset_x
      ∧ (pan x y s).offset_x ≤ 0)
  ∧ (-canvasHeight * ((pan x y s).zoom_factor - 1) ≤ (pan x y s).offset_y
      ∧ (pan x y s).offset_y ≤ 0)
  ∧ (∀ (d : String) (t : AppState α),
      (zoom d t).offset_x = t.offset_x ∧ (zoom d t).offset_y = t.offset_y) := by
  have hz1 : (0:ℚ) ≤ s.zoom_factor - 1 := by linarith
  have hbx : -canvasWidth * (s.zoom_factor - 1) ≤ 0 := by
    have : (0:ℚ) ≤ canvasWidth * (s.zoom_factor - 1) := by
      have hw : (0:ℚ) ≤ canvasWidth := by norm_num [canvasWidth]
      exact mul_nonneg hw hz1
    linarith
  have hby : -canvasHeight * (s.zoom_factor - 1) ≤ 0 := by
    have : (0:ℚ) ≤ canvasHeight * (s.zoom_factor - 1) := by
      have hh : (0:ℚ) ≤ canvasHeight := by norm_num [canvasHeight]
      exact mul_nonneg hh hz1
    linarith
  simp only [pan, hp, if_true]
  refine ⟨⟨le_max_left _ _, max_le hbx (min_le_left _ _)⟩,
          ⟨le_max_left _ _, max_le hby (min_le_left _ _)⟩, ?_⟩
  intro d t
  unfold zoom
  split_ifs <;> exact ⟨rfl, rfl⟩

/-- Witness for C8 at a freshly entered pan mode. -/
theorem C8_witness :
    (1 ≤ (start_pan 5 5 (initState primsNat 0) : AppState Nat).zoom_factor
      ∧ (start_pan 5 5 (initState primsNat 0) : AppState Nat).pan_mode = true)
  ∧ ((-canvasWidth * ((pan 0 0 (start_pan 5 5 (initState primsNat 0))).zoom_factor - 1)
          ≤ (pan 0 0 (start_pan 5 5 (initState primsNat 0))).offset_x
      ∧ (pan 0 0 (start_pan 5 5 (initState primsNat 0))).offset_x ≤ 0)
     ∧ (-canvasHeight * ((pan 0 0 (start_pan 5 5 (initState primsNat 0))).zoom_factor - 1)
          ≤ (pan 0 0 (start_pan 5 5 (initState primsNat 0))).offset_y
      ∧ (pan 0 0 (start_pan 5 5 (initState primsNat 0))).offset_y ≤ 0)
     ∧ (∀ (d : String) (t : AppState Nat),
          (zoom d t).offset_x = t.offset_x ∧ (zoom d t).offset_y = t.offset_y)) :=
  ⟨⟨by decide, by decide⟩,
   C8_pan_clamps_offsets (start_pan 5 5 (initState primsNat 0)) 0 0 (by decide) (by decide)⟩

/-- A classifier stub that reports `pan` (class 10) with confidence 0.9
when the oldest snapshot in the window is `snap 2`, and `write_start`
(class 0) with confidence 0.9 otherwise. -/
def classifyC9 : List Coords → Nat × ℚ := fun w =>
  if w.headD [] = snap 2 then (10, 9/10) else (0, 9/10)

/-- Four snapshot frames at t=10 (dispatching `write_start` and beginning a
stroke), then a fifth frame at t=12 whose window is classified `pan`. -/
def strokeThenPan : AppState Nat :=
  runStep primsNat classifyC9 12 (some (snap 5))
    (([snap 1, snap 2, snap 3, snap 4].map some).foldl
      (fun s l => runStep primsNat classifyC9 10 l s) (initState primsNat 0))

/-- C9 counterexample: a dispatched pan command arriving while a freehand
stroke is active leaves the stroke active — the reached state has both
Drawing-with-stroke-active and Panning-with-anchor-set, and the stroke was
never committed (the history still holds only the seeded blank canvas). -/
theorem C9_counterexample :
    strokeThenPan.drawing = true ∧ strokeThenPan.pan_mode = true
  ∧ strokeThenPan.last_gesture = some "pan"
  ∧ strokeThenPan.history.length = 1 := by
  decide

/-- C9 (amended): entering pan mode does not force-end or commit an active
stroke: `start_pan` sets the pan anchor while leaving `drawing`, the canvas
and the history unchanged, so Drawing-with-stroke-active and
Panning-with-anchor-set can hold simultaneously. -/
theorem C9_pan_entry_keeps_stroke {α : Type} (s : AppState α) (x y : Int)
    (hd : s.drawing = true) :
    (start_pan x y s).drawing = true ∧ (start_pan x y s).pan_mode = true
  ∧ (start_pan x y s).history = s.history
  ∧ (start_pan x y s).canvas = s.canvas :=
  ⟨hd, rfl, rfl, rfl⟩

/-- Witness for C9 at a state with an active stroke. -/
theorem C9_witness :
    ((start_drawing 0 0 (initState primsNat 0) : AppState Nat).drawing = true)
  ∧ ((start_pan 3 4 (start_drawing 0 0 (initState primsNat 0))).drawing = true
      ∧ (start_pan 3 4 (start_drawing 0 0 (initState primsNat 0))).pan_mode = true
      ∧ (start_pan 3 4 (start_drawing 0 0 (initState primsNat 0))).history
          = (start_drawing 0 0 (initState primsNat 0) : AppState Nat).history
      ∧ (start_pan 3 4 (start_drawing 0 0 (initState primsNat 0))).canvas
          = (start_drawing 0 0 (initState primsNat 0) : AppState Nat).canvas) :=
  ⟨by decide, C9_pan_entry_keeps_stroke (start_drawing 0 0 (initState primsNat 0)) 3 4 (by decide)⟩

end MicroGesture
